import Mathlib

set_option linter.unusedVariables false

/-!
Shallow embedding of the STM32L4R5 RNG peripheral model from
`hw/misc/stm32l4r5_rng.c`, together with theorems checking the
natural-language specification against it.

The register file is an array of three 32-bit registers (`regs[RNG_CR]`,
`regs[RNG_SR]`, `regs[RNG_DR]`); here it is embedded as three `Nat`
fields together with a counter of how many values have been consumed
from the external random source (`qemu_guest_getrandom`).  The random
source itself is a parameter `src : Nat → Nat`: the i-th invocation of
`qemu_guest_getrandom` yields `src i`.  Diagnostic logging
(`qemu_log_mask`) has no register-visible effect and is not modelled.
-/

namespace STM32L4R5RNG

/-- `enum { RNG_CR = 0, RNG_SR = 1, RNG_DR = 2 }` — register indices. -/
def RNG_CR : Nat := 0

def RNG_SR : Nat := 1

def RNG_DR : Nat := 2

/-- `#define OFFSET_TO_REG(offset) ((offset) / 4)` -/
def OFFSET_TO_REG (offset : Nat) : Nat := offset / 4

/-- Modelled from the spec: `STM32L4R5_RNG_REGS_SIZE` is defined in the
header `hw/misc/stm32l4r5_rng.h`, which is not among the provided source
files.  The spec fixes the register file as "an ordered, fixed-size
array of three 32-bit registers", giving a byte size of 12. -/
def STM32L4R5_RNG_REGS_SIZE : Nat := 12

/-- The device state: the three 32-bit registers `regs[0..2]` of the C
struct `STM32L4R5RNGState`, plus `drawn`, the number of invocations of
`qemu_guest_getrandom` so far (not a C field; it tracks consumption of
the external random source so that call counts can be stated). -/
structure STM32L4R5RNGState where
  cr : Nat
  sr : Nat
  dr : Nat
  drawn : Nat
  deriving Repr, DecidableEq

/-- Reset state: the register file is zero-initialized at construction
and no random values have been consumed. -/
def initState : STM32L4R5RNGState := ⟨0, 0, 0, 0⟩

/-- `stm32l4r5_rng_read`: returns the value read and the state
afterwards.  `src i` is the value produced by the i-th invocation of
`qemu_guest_getrandom`; the `size` argument is ignored by the handler,
as in the C code. -/
def stm32l4r5_rng_read (src : Nat → Nat) (s : STM32L4R5RNGState)
    (offset : Nat) (size : Nat) : Nat × STM32L4R5RNGState :=
  if STM32L4R5_RNG_REGS_SIZE ≤ offset then
    (0, s)
  else if OFFSET_TO_REG offset = RNG_CR then
    (s.cr, s)
  else if OFFSET_TO_REG offset = RNG_SR then
    (s.sr, s)
  else if OFFSET_TO_REG offset = RNG_DR then
    if s.sr &&& 0x1 ≠ 0 then
      (src s.drawn, { s with drawn := s.drawn + 1 })
    else
      (0, s)
  else
    (0, s)

/-- `stm32l4r5_rng_write`: note the switch dispatches on the raw byte
`offset`, compared against the register indices `RNG_CR = 0`,
`RNG_SR = 1`, `RNG_DR = 2` (not against `OFFSET_TO_REG offset`).
Registers are `uint32_t`, so the CR store truncates to 32 bits and the
complemented masks `~0x1`, `~0x40`, `~0x20` are the 32-bit constants
below.  The `size` argument is ignored by the handler, as in the C
code. -/
def stm32l4r5_rng_write (s : STM32L4R5RNGState) (offset : Nat)
    (value : Nat) (size : Nat) : STM32L4R5RNGState :=
  if offset = RNG_CR then
    let s := { s with cr := value % 2 ^ 32 }
    if value &&& 0x4 ≠ 0 then
      { s with sr := s.sr ||| 0x1 }
    else
      { s with sr := s.sr &&& 0xFFFFFFFE }
  else if offset = RNG_SR then
    let s := if value &&& 0x40 = 0 then { s with sr := s.sr &&& 0xFFFFFFBF } else s
    if value &&& 0x20 = 0 then { s with sr := s.sr &&& 0xFFFFFFDF } else s
  else if offset = RNG_DR then
    s
  else
    s

/-- Declared bus capabilities of `stm32l4r5_rng_ops`: minimal and
maximal access size, and whether unaligned accesses are accepted. -/
structure MemoryRegionOpsValid where
  min_access_size : Nat
  max_access_size : Nat
  unaligned : Bool
  deriving Repr, DecidableEq

/-- `.valid` of `static const MemoryRegionOps stm32l4r5_rng_ops`. -/
def stm32l4r5_rng_ops_valid : MemoryRegionOpsValid :=
  { min_access_size := 4, max_access_size := 4, unaligned := false }

/-- One bus operation delivered to the peripheral. -/
inductive Op where
  | read (offset size : Nat)
  | write (offset value size : Nat)
  deriving Repr, DecidableEq

/-- Effect of one operation on the device state. -/
def step (src : Nat → Nat) (s : STM32L4R5RNGState) : Op → STM32L4R5RNGState
  | Op.read offset size => (stm32l4r5_rng_read src s offset size).2
  | Op.write offset value size => stm32l4r5_rng_write s offset value size

/-- Run a sequence of operations from a state. -/
def run (src : Nat → Nat) (s : STM32L4R5RNGState) : List Op → STM32L4R5RNGState
  | [] => s
  | op :: ops => run src (step src s op) ops

/-! ## Helper lemmas -/

lemma land_pow_ne_zero (value i : Nat) :
    (value &&& 2 ^ i ≠ 0) ↔ value.testBit i = true := by
  rw [Nat.and_two_pow]
  cases h : value.testBit i <;> simp

lemma testBit2_mod (value : Nat) : (value % 2 ^ 32).testBit 2 = value.testBit 2 := by
  rw [Nat.testBit_mod_two_pow]; simp

/-- The read handler never touches the register file. -/
lemma read_frame (src : Nat → Nat) (s : STM32L4R5RNGState) (offset size : Nat) :
    ((stm32l4r5_rng_read src s offset size).2).cr = s.cr ∧
    ((stm32l4r5_rng_read src s offset size).2).sr = s.sr ∧
    ((stm32l4r5_rng_read src s offset size).2).dr = s.dr := by
  unfold stm32l4r5_rng_read
  repeat' split
  all_goals simp

/-- A write whose byte offset is none of the register indices 0, 1, 2
falls into the default case and is discarded. -/
lemma write_other_frame (s : STM32L4R5RNGState) (offset value size : Nat)
    (h0 : offset ≠ 0) (h1 : offset ≠ 1) (h2 : offset ≠ 2) :
    stm32l4r5_rng_write s offset value size = s := by
  unfold stm32l4r5_rng_write RNG_CR RNG_SR RNG_DR
  simp [h0, h1, h2]

/-- A write at byte offset 2 hits the `RNG_DR` case: log only, no state
change. -/
lemma write_dr_frame (s : STM32L4R5RNGState) (value size : Nat) :
    stm32l4r5_rng_write s 2 value size = s := by
  unfold stm32l4r5_rng_write RNG_CR RNG_SR RNG_DR
  norm_num

/-- Shape of the `RNG_CR` case of the write handler (byte offset 0). -/
lemma write_cr_eq (s : STM32L4R5RNGState) (value size : Nat) :
    stm32l4r5_rng_write s 0 value size =
      if value &&& 0x4 ≠ 0 then { s with cr := value % 2 ^ 32, sr := s.sr ||| 0x1 }
      else { s with cr := value % 2 ^ 32, sr := s.sr &&& 0xFFFFFFFE } := by
  unfold stm32l4r5_rng_write RNG_CR
  split <;> split <;> first | rfl | simp_all

/-- Shape of the `RNG_SR` case of the write handler (byte offset 1). -/
lemma write_sr_eq (s : STM32L4R5RNGState) (value size : Nat) :
    stm32l4r5_rng_write s 1 value size =
      let s1 := if value &&& 0x40 = 0 then { s with sr := s.sr &&& 0xFFFFFFBF } else s
      if value &&& 0x20 = 0 then { s1 with sr := s1.sr &&& 0xFFFFFFDF } else s1 := by
  unfold stm32l4r5_rng_write RNG_CR RNG_SR
  norm_num

/-- The sticky-clear masks of the `RNG_SR` case keep SR bit 0 and leave
CR alone. -/
lemma sr_write_bit0 (s : STM32L4R5RNGState) (value size : Nat) :
    (stm32l4r5_rng_write s 1 value size).sr.testBit 0 = s.sr.testBit 0 ∧
    (stm32l4r5_rng_write s 1 value size).cr = s.cr := by
  rw [write_sr_eq]
  split <;> split <;> simp [Nat.testBit_land]

/-- Effect of the `RNG_CR` case on CR and on the derived DRDY bit. -/
lemma cr_write_drdy (s : STM32L4R5RNGState) (value size : Nat) :
    (stm32l4r5_rng_write s 0 value size).cr = value % 2 ^ 32 ∧
    (stm32l4r5_rng_write s 0 value size).sr.testBit 0 = value.testBit 2 := by
  rw [write_cr_eq]
  split
  · rename_i h
    rw [show (4 : Nat) = 2 ^ 2 from rfl, land_pow_ne_zero] at h
    simp [Nat.testBit_lor, h]
  · rename_i h
    rw [show (4 : Nat) = 2 ^ 2 from rfl, land_pow_ne_zero] at h
    simp only [Bool.not_eq_true] at h
    simp [Nat.testBit_land, h]

lemma cr_write_testBit2 (s : STM32L4R5RNGState) (value size : Nat) :
    (stm32l4r5_rng_write s 0 value size).cr.testBit 2 = value.testBit 2 := by
  rw [(cr_write_drdy s value size).1, testBit2_mod]

/-- Every single operation preserves the DRDY/enable equivalence. -/
lemma drdy_inv_step (src : Nat → Nat) (s : STM32L4R5RNGState) (op : Op)
    (h : s.sr.testBit 0 = s.cr.testBit 2) :
    (step src s op).sr.testBit 0 = (step src s op).cr.testBit 2 := by
  cases op with
  | read offset size =>
    have hf := read_frame src s offset size
    simp only [step, hf.1, hf.2.1, h]
  | write offset value size =>
    by_cases h0 : offset = 0
    · subst h0
      simp only [step, (cr_write_drdy s value size).2, cr_write_testBit2]
    · by_cases h1 : offset = 1
      · subst h1
        have := sr_write_bit0 s value size
        simp only [step, this.1, this.2, h]
      · by_cases h2 : offset = 2
        · subst h2
          simp only [step, write_dr_frame, h]
        · simp only [step]
          rw [write_other_frame s offset value size h0 h1 h2]
          exact h

lemma drdy_inv_run (src : Nat → Nat) (ops : List Op) (s : STM32L4R5RNGState)
    (h : s.sr.testBit 0 = s.cr.testBit 2) :
    (run src s ops).sr.testBit 0 = (run src s ops).cr.testBit 2 := by
  induction ops generalizing s with
  | nil => exact h
  | cons op ops ih => exact ih _ (drdy_inv_step src s op h)

/-- Every single operation keeps SR in `{0, 1}`. -/
lemma sr_le_one_step (src : Nat → Nat) (s : STM32L4R5RNGState) (op : Op)
    (h : s.sr = 0 ∨ s.sr = 1) :
    (step src s op).sr = 0 ∨ (step src s op).sr = 1 := by
  cases op with
  | read offset size =>
    have hf := read_frame src s offset size
    simp only [step, hf.2.1]; exact h
  | write offset value size =>
    by_cases h0 : offset = 0
    · subst h0
      simp only [step]
      rw [write_cr_eq]
      rcases h with h | h <;> split <;> simp [h]
    · by_cases h1 : offset = 1
      · subst h1
        simp only [step]
        rw [write_sr_eq]
        rcases h with h | h <;> split <;> split <;> simp [h]
      · by_cases h2 : offset = 2
        · subst h2; simp only [step, write_dr_frame]; exact h
        · simp only [step]
          rw [write_other_frame s offset value size h0 h1 h2]
          exact h

lemma sr_le_one_run (src : Nat → Nat) (ops : List Op) (s : STM32L4R5RNGState)
    (h : s.sr = 0 ∨ s.sr = 1) :
    (run src s ops).sr = 0 ∨ (run src s ops).sr = 1 := by
  induction ops generalizing s with
  | nil => exact h
  | cons op ops ih => exact ih _ (sr_le_one_step src s op h)

/-! ## Claim theorems -/

/-- Claim C1 (code bug, evaluated at the failing input): the write
handler's switch compares the raw byte offset against the register
indices, so a 4-byte write at byte offset 0x4 (SR) falls into the
default case and is discarded.  From a state with SR sticky bit 6 set
(resp. bit 5), writing 0 at offset 0x4 leaves the state — and in
particular the sticky bit — unchanged, contradicting the claimed
clear-only semantics, which require the bit to become 0. -/
theorem write_sr_offset_discarded :
    stm32l4r5_rng_write ⟨0, 0x40, 0, 0⟩ 4 0 4 = ⟨0, 0x40, 0, 0⟩ ∧
    (stm32l4r5_rng_write ⟨0, 0x40, 0, 0⟩ 4 0 4).sr.testBit 6 = true ∧
    stm32l4r5_rng_write ⟨0, 0x20, 0, 0⟩ 4 0 4 = ⟨0, 0x20, 0, 0⟩ ∧
    (stm32l4r5_rng_write ⟨0, 0x20, 0, 0⟩ 4 0 4).sr.testBit 5 = true := by
  decide

/-- Claim C2: a 4-byte write at byte offset 0x0 (CR) stores the written
value into CR, forces SR bit 0 (DRDY) to bit 2 of the written value, and
a subsequent read at offset 0x4 (SR) observes that DRDY value. -/
theorem cr_write_enable_drdy (src : Nat → Nat) (s : STM32L4R5RNGState)
    (value size size2 : Nat) (hv : value < 2 ^ 32) :
    (stm32l4r5_rng_write s 0 value size).cr = value ∧
    (stm32l4r5_rng_write s 0 value size).sr.testBit 0 = value.testBit 2 ∧
    ((stm32l4r5_rng_read src (stm32l4r5_rng_write s 0 value size) 4 size2).1.testBit 0
      = value.testBit 2) := by
  have hd := cr_write_drdy s value size
  have hread : (stm32l4r5_rng_read src (stm32l4r5_rng_write s 0 value size) 4 size2).1
      = (stm32l4r5_rng_write s 0 value size).sr := by
    simp [stm32l4r5_rng_read, OFFSET_TO_REG, STM32L4R5_RNG_REGS_SIZE, RNG_CR, RNG_SR]
  refine ⟨?_, hd.2, ?_⟩
  · rw [hd.1, Nat.mod_eq_of_lt hv]
  · rw [hread, hd.2]

/-- Witness for C2 at the concrete write value 0x4. -/
theorem cr_write_enable_drdy_witness :
    (stm32l4r5_rng_write initState 0 4 4).cr = 4 ∧
    (stm32l4r5_rng_write initState 0 4 4).sr.testBit 0 = (4 : Nat).testBit 2 ∧
    ((stm32l4r5_rng_read (fun i => i) (stm32l4r5_rng_write initState 0 4 4) 4 4).1.testBit 0
      = (4 : Nat).testBit 2) :=
  cr_write_enable_drdy (fun i => i) initState 4 4 4 (by decide)

/-- Claim C3: a read at byte offset 0x8 (DR) with DRDY clear returns 0
and consumes nothing from the random source; with DRDY set it consumes
exactly one value from the source and returns it. -/
theorem dr_read_gated (src : Nat → Nat) (s : STM32L4R5RNGState) (size : Nat) :
    (s.sr.testBit 0 = false → stm32l4r5_rng_read src s 8 size = (0, s)) ∧
    (s.sr.testBit 0 = true →
      stm32l4r5_rng_read src s 8 size = (src s.drawn, { s with drawn := s.drawn + 1 })) := by
  constructor
  · intro h
    rw [Nat.testBit_zero] at h
    have hm : s.sr % 2 = 0 := by simpa using h
    simp [stm32l4r5_rng_read, OFFSET_TO_REG, STM32L4R5_RNG_REGS_SIZE, RNG_CR, RNG_SR,
      RNG_DR, hm]
  · intro h
    rw [Nat.testBit_zero] at h
    have hm : s.sr % 2 = 1 := by simpa using h
    simp [stm32l4r5_rng_read, OFFSET_TO_REG, STM32L4R5_RNG_REGS_SIZE, RNG_CR, RNG_SR,
      RNG_DR, hm]

/-- Witness for C3: a disabled and an enabled DR read at concrete
states; the mock source yields 7 on its first invocation. -/
theorem dr_read_gated_witness :
    stm32l4r5_rng_read (fun i => 7 + i) ⟨0, 0, 0, 0⟩ 8 4 = (0, ⟨0, 0, 0, 0⟩) ∧
    stm32l4r5_rng_read (fun i => 7 + i) ⟨4, 1, 0, 0⟩ 8 4 = (7, ⟨4, 1, 0, 1⟩) :=
  ⟨(dr_read_gated (fun i => 7 + i) ⟨0, 0, 0, 0⟩ 4).1 (by decide),
   (dr_read_gated (fun i => 7 + i) ⟨4, 1, 0, 0⟩ 4).2 (by decide)⟩

/-- Claim C4: in every state reachable from the zero-initialized
register file, SR bit 0 (DRDY) equals CR bit 2 (the enable bit written
by the most recent CR write); moreover no write at an offset other than
CR's and no read can change either side of the equivalence. -/
theorem drdy_iff_enable_invariant (src : Nat → Nat) (ops : List Op) :
    ((run src initState ops).sr.testBit 0 = (run src initState ops).cr.testBit 2) ∧
    (∀ s : STM32L4R5RNGState, ∀ offset value size, offset ≠ 0 →
      (stm32l4r5_rng_write s offset value size).sr.testBit 0 = s.sr.testBit 0 ∧
      (stm32l4r5_rng_write s offset value size).cr.testBit 2 = s.cr.testBit 2) ∧
    (∀ s : STM32L4R5RNGState, ∀ offset size,
      ((stm32l4r5_rng_read src s offset size).2).sr.testBit 0 = s.sr.testBit 0 ∧
      ((stm32l4r5_rng_read src s offset size).2).cr.testBit 2 = s.cr.testBit 2) := by
  refine ⟨drdy_inv_run src ops initState (by decide), ?_, ?_⟩
  · intro s offset value size h0
    by_cases h1 : offset = 1
    · subst h1
      have := sr_write_bit0 s value size
      exact ⟨this.1, by rw [this.2]⟩
    · by_cases h2 : offset = 2
      · subst h2; rw [write_dr_frame]; exact ⟨rfl, rfl⟩
      · rw [write_other_frame s offset value size h0 h1 h2]; exact ⟨rfl, rfl⟩
  · intro s offset size
    have hf := read_frame src s offset size
    rw [hf.1, hf.2.1]; exact ⟨rfl, rfl⟩

/-- Witness for C4: the invariant after a concrete run, and the frame
part instantiated at the non-CR offset 0x4. -/
theorem drdy_iff_enable_invariant_witness :
    ((run (fun i => i) initState [Op.write 0 4 4]).sr.testBit 0
      = (run (fun i => i) initState [Op.write 0 4 4]).cr.testBit 2) ∧
    (stm32l4r5_rng_write ⟨4, 1, 0, 0⟩ 4 7 4).sr.testBit 0
      = (STM32L4R5RNGState.mk 4 1 0 0).sr.testBit 0 :=
  ⟨(drdy_iff_enable_invariant (fun i => i) [Op.write 0 4 4]).1,
   ((drdy_iff_enable_invariant (fun i => i) []).2.1 ⟨4, 1, 0, 0⟩ 4 7 4 (by decide)).1⟩

/-- Claim C5: at any byte offset at or beyond the register-file size, a
read returns 0 with the state unchanged and a write is discarded;
neither faults (both are total functions returning a defined result). -/
theorem oob_access_noop (src : Nat → Nat) (s : STM32L4R5RNGState)
    (offset value size size2 : Nat) (h : STM32L4R5_RNG_REGS_SIZE ≤ offset) :
    stm32l4r5_rng_read src s offset size = (0, s) ∧
    stm32l4r5_rng_write s offset value size2 = s := by
  constructor
  · simp [stm32l4r5_rng_read, h]
  · have h12 : 12 ≤ offset := h
    exact write_other_frame s offset value size2 (by omega) (by omega) (by omega)

/-- Witness for C5 at the first out-of-bounds offset, 12. -/
theorem oob_access_noop_witness :
    stm32l4r5_rng_read (fun i => i) initState 12 4 = (0, initState) ∧
    stm32l4r5_rng_write initState 12 0xFF 4 = initState :=
  oob_access_noop (fun i => i) initState 12 0xFF 4 4 (by decide)

/-- Claim C6: a write at byte offset 0x8 (DR, read-only) is observably a
no-op on the whole device state: every register keeps its value and the
written value is discarded. -/
theorem dr_write_noop (s : STM32L4R5RNGState) (value size : Nat) :
    stm32l4r5_rng_write s 8 value size = s :=
  write_other_frame s 8 value size (by decide) (by decide) (by decide)

/-- State after the scenario's enabling CR write (value 0x4 at 0x0). -/
def scenario_s1 : STM32L4R5RNGState := stm32l4r5_rng_write initState 0 0x4 4

/-- The scenario's SR read after enabling. -/
def scenario_r2 (src : Nat → Nat) : Nat × STM32L4R5RNGState :=
  stm32l4r5_rng_read src scenario_s1 4 4

/-- The scenario's first DR read. -/
def scenario_r3 (src : Nat → Nat) : Nat × STM32L4R5RNGState :=
  stm32l4r5_rng_read src (scenario_r2 src).2 8 4

/-- The scenario's second DR read. -/
def scenario_r4 (src : Nat → Nat) : Nat × STM32L4R5RNGState :=
  stm32l4r5_rng_read src (scenario_r3 src).2 8 4

/-- State after the scenario's disabling CR write (value 0x0 at 0x0). -/
def scenario_s5 (src : Nat → Nat) : STM32L4R5RNGState :=
  stm32l4r5_rng_write (scenario_r4 src).2 0 0x0 4

/-- The scenario's SR read after disabling. -/
def scenario_r6 (src : Nat → Nat) : Nat × STM32L4R5RNGState :=
  stm32l4r5_rng_read src (scenario_s5 src) 4 4

/-- The scenario's final DR read, after disabling. -/
def scenario_r7 (src : Nat → Nat) : Nat × STM32L4R5RNGState :=
  stm32l4r5_rng_read src (scenario_r6 src).2 8 4

/-- Claim C7: the enable / read-twice / disable scenario.  From reset:
write 0x4 to CR, read SR (= 0x1), read DR twice (the source is consumed
once per read, yielding `src 0` then `src 1`), write 0x0 to CR, read SR
(= 0x0), read DR (= 0, and the source is not consumed a third time). -/
theorem enable_disable_scenario (src : Nat → Nat) :
    (scenario_r2 src).1 = 0x1 ∧
    (scenario_r3 src).1 = src 0 ∧ ((scenario_r3 src).2).drawn = 1 ∧
    (scenario_r4 src).1 = src 1 ∧ ((scenario_r4 src).2).drawn = 2 ∧
    (scenario_r6 src).1 = 0x0 ∧
    (scenario_r7 src).1 = 0 ∧ ((scenario_r7 src).2).drawn = 2 := by
  simp only [scenario_r2, scenario_r3, scenario_r4, scenario_r6, scenario_r7,
    scenario_s1, scenario_s5, stm32l4r5_rng_read, stm32l4r5_rng_write, initState,
    OFFSET_TO_REG, STM32L4R5_RNG_REGS_SIZE, RNG_CR, RNG_SR, RNG_DR]
  norm_num

/-- Claim C8: the write switch dispatches on the raw byte offset, so
among 4-byte-aligned offsets only 0x0 can change the state; the
SR-clear case runs only at the unaligned byte offset 1 (where it does
clear sticky bits) and the DR case only at the unaligned byte offset 2,
and the declared bus capabilities (`valid` of `stm32l4r5_rng_ops`)
reject unaligned accesses and fix the access size at 4. -/
theorem write_dispatch_byte_offset (s : STM32L4R5RNGState)
    (offset value size : Nat) (haligned : offset % 4 = 0) (hnz : offset ≠ 0) :
    stm32l4r5_rng_write s offset value size = s ∧
    (stm32l4r5_rng_write ⟨0, 0x60, 0, 0⟩ 1 0 4).sr = 0 ∧
    stm32l4r5_rng_write ⟨0, 0x60, 0, 0⟩ 2 0x123 4 = ⟨0, 0x60, 0, 0⟩ ∧
    stm32l4r5_rng_ops_valid.unaligned = false ∧
    stm32l4r5_rng_ops_valid.min_access_size = 4 ∧
    stm32l4r5_rng_ops_valid.max_access_size = 4 := by
  refine ⟨?_, by decide, by decide, rfl, rfl, rfl⟩
  exact write_other_frame s offset value size hnz (by omega) (by omega)

/-- Witness for C8 at the aligned offset 0x4. -/
theorem write_dispatch_byte_offset_witness :
    stm32l4r5_rng_write ⟨9, 1, 0, 0⟩ 4 0xFF 4 = ⟨9, 1, 0, 0⟩ :=
  (write_dispatch_byte_offset ⟨9, 1, 0, 0⟩ 4 0xFF 4 (by decide) (by decide)).1

/-- Claim C9: in every state reachable from reset, SR is 0 or 1; in
particular the sticky bits 5 and 6 are never observable as set. -/
theorem sr_at_most_one_invariant (src : Nat → Nat) (ops : List Op) :
    ((run src initState ops).sr = 0 ∨ (run src initState ops).sr = 1) ∧
    (run src initState ops).sr.testBit 5 = false ∧
    (run src initState ops).sr.testBit 6 = false := by
  have h := sr_le_one_run src ops initState (Or.inl rfl)
  refine ⟨h, ?_, ?_⟩ <;> rcases h with h | h <;> rw [h] <;> decide

/-- Claim C10: the read handler never modifies the register file: CR,
SR and DR are identical before and after any read, at any offset and
access size. -/
theorem read_preserves_registers (src : Nat → Nat) (s : STM32L4R5RNGState)
    (offset size : Nat) :
    ((stm32l4r5_rng_read src s offset size).2).cr = s.cr ∧
    ((stm32l4r5_rng_read src s offset size).2).sr = s.sr ∧
    ((stm32l4r5_rng_read src s offset size).2).dr = s.dr :=
  read_frame src s offset size

end STM32L4R5RNG
